import Mathlib

/-!
Shallow/deep embedding of `examples/Notebooks_examples/Example_Bagging.ipynb`.

The notebook is a straight-line Python script: it loads the breast-cancer
dataset, splits it into train/test, standardizes features with a scaler
fitted on the training part, splits the scaled training data into a pool
training subset and a dynamic-selection (DSEL) subset, fits a
BaggingClassifier of calibrated Perceptrons, constructs seven
dynamic-selection estimators from that pool, fits them on the DSEL subset,
and prints test-set accuracies.

We embed the script's code cells as a list of statements (`prog`) over a
small expression language whose shapes mirror the source lines one for one,
and give it a semantics in which every external library call produces a
symbolic value recording the callee, its arguments, its keyword constants
and, for randomized calls (data splits and model fitting), the draw taken
from an ambient random source `w : Nat → Nat` (one draw per statement,
indexed by the statement's position).  Fitting a model mutates the bound
variable, as `sklearn`'s in-place `fit` does.  A failure oracle
`fa : Option Nat` models an exception raised inside statement `fa`:
execution stops there and nothing from that statement onward is printed.

Separately, `tts_model` models the row-level meaning of
`train_test_split`: shuffle the row indices (a rotation of `List.range n`
by the random draw stands in for the shuffle) and cut the shuffled list at
the test-set size, so that the two returned parts are provably disjoint.
-/

namespace BaggingExample

/-- A numeric literal of the script, recorded as the decimal it is written
as: `num / den` (so `0.33` is `⟨33, 100⟩`, `10` is `⟨10, 1⟩`). -/
structure Lit where
  num : Nat
  den : Nat
deriving DecidableEq, Repr

/-- Keyword arguments of a library call: name/literal pairs. -/
abbrev Kwargs := List (String × Lit)

/-- Expressions of the script.  Calls keep the arity they have in the
source (every call in the notebook has at most two positional arguments). -/
inductive Expr where
  | var : String → Expr
  | attr : Expr → String → Expr
  | call0 : String → Kwargs → Expr
  | call1 : String → Expr → Kwargs → Expr
  | call2 : String → Expr → Expr → Kwargs → Expr
  | method1 : Expr → String → Expr → Expr
deriving DecidableEq, Repr

/-- Statements of the script.  `fit2 x e₁ e₂` is `x.fit(e₁, e₂)` (in-place
mutation of `x`); `fitTransform x r e` is `x = r.fit_transform(e)` (fits
`r` in place and binds the transformed data to `x`); `printScore2 lbl x e₁ e₂`
is `print(lbl, x.score(e₁, e₂))`. -/
inductive Stmt where
  | assign : String → Expr → Stmt
  | assign4 : String → String → String → String → Expr → Stmt
  | fit2 : String → Expr → Expr → Stmt
  | fitTransform : String → String → Expr → Stmt
  | printScore2 : String → String → Expr → Expr → Stmt
deriving DecidableEq, Repr

/-- Symbolic runtime values: terms recording exactly which library call,
with which inputs and which random draw, produced each object. -/
inductive Val where
  | undef : String → Val
  | attr : Val → String → Val
  | proj : Nat → Val → Val
  | res0 : String → Kwargs → Option Nat → Val
  | res1 : String → Val → Kwargs → Option Nat → Val
  | res2 : String → Val → Val → Kwargs → Option Nat → Val
  | mres1 : Val → String → Val → Val
  | fitted1 : Val → Val → Nat → Val
  | fitted2 : Val → Val → Val → Nat → Val
  | score : Val → Val → Val → Val
deriving DecidableEq, Repr

/-- The environment: variable bindings, most recent first. -/
abbrev Env := List (String × Val)

def lookup : Env → String → Option Val
  | [], _ => none
  | (k, v) :: t, x => if k = x then some v else lookup t x

def upd (env : Env) (x : String) (v : Val) : Env := (x, v) :: env

def lookupD (env : Env) (x : String) : Val := (lookup env x).getD (Val.undef x)

/-- The library functions whose result depends on the random source when no
`random_state` is given (in this script: the data splitter). -/
def randomized : String → Bool
  | "train_test_split" => true
  | _ => false

/-- Does a keyword-argument list pin the random state? -/
def hasRandomState (ks : Kwargs) : Bool := ks.any (fun p => p.1 = "random_state")

/-- Evaluate an expression.  `r` is the random draw available to the
enclosing statement; a randomized call without a `random_state` keyword
records it. -/
def evalE (r : Nat) (env : Env) : Expr → Val
  | .var x => lookupD env x
  | .attr e f => .attr (evalE r env e) f
  | .call0 fn ks =>
      .res0 fn ks (if randomized fn && !hasRandomState ks then some r else none)
  | .call1 fn e ks =>
      .res1 fn (evalE r env e) ks
        (if randomized fn && !hasRandomState ks then some r else none)
  | .call2 fn e₁ e₂ ks =>
      .res2 fn (evalE r env e₁) (evalE r env e₂) ks
        (if randomized fn && !hasRandomState ks then some r else none)
  | .method1 e m a => .mres1 (evalE r env e) m (evalE r env a)

/-- Execute one statement: new environment and the lines it prints. -/
def stepS (r : Nat) (env : Env) : Stmt → Env × List (String × Val)
  | .assign x e => (upd env x (evalE r env e), [])
  | .assign4 a b c d e =>
      let v := evalE r env e
      (upd (upd (upd (upd env a (.proj 0 v)) b (.proj 1 v)) c (.proj 2 v))
        d (.proj 3 v), [])
  | .fit2 x e₁ e₂ =>
      (upd env x (.fitted2 (lookupD env x) (evalE r env e₁) (evalE r env e₂) r), [])
  | .fitTransform x rv e =>
      let s := Val.fitted1 (lookupD env rv) (evalE r env e) r
      (upd (upd env rv s) x (.mres1 s "transform" (evalE r env e)), [])
  | .printScore2 lbl x e₁ e₂ =>
      (env, [(lbl, .score (lookupD env x) (evalE r env e₁) (evalE r env e₂))])

/-- The outcome of running a statement list: what was printed, the final
environment, the statements actually executed (in order), and whether the
run completed without an exception. -/
structure RunResult where
  output : List (String × Val)
  env : Env
  exec : List Stmt
  ok : Bool
deriving DecidableEq, Repr

/-- Run statements in order from position `i`.  Statement `i` uses random
draw `w i`; if the failure oracle names statement `i`, an exception is
raised there: nothing of that statement runs, nothing more is printed, and
execution terminates with `ok = false`. -/
def runFrom (w : Nat → Nat) (fa : Option Nat) : List Stmt → Nat → Env → RunResult
  | [], _, env => ⟨[], env, [], true⟩
  | s :: ss, i, env =>
      if fa = some i then ⟨[], env, [], false⟩
      else
        let p := stepS (w i) env s
        let rest := runFrom w fa ss (i + 1) p.1
        ⟨p.2 ++ rest.output, rest.env, s :: rest.exec, rest.ok⟩

/-- The notebook's code cells, statement for statement, in source order. -/
def prog : List Stmt := [
  .assign "data" (.call0 "load_breast_cancer" []),
  .assign "X" (.attr (.var "data") "data"),
  .assign "y" (.attr (.var "data") "target"),
  .assign4 "X_train" "X_test" "y_train" "y_test"
    (.call2 "train_test_split" (.var "X") (.var "y") [("test_size", ⟨33, 100⟩)]),
  .assign "scalar" (.call0 "StandardScaler" []),
  .fitTransform "X_train" "scalar" (.var "X_train"),
  .assign "X_test" (.method1 (.var "scalar") "transform" (.var "X_test")),
  .assign4 "X_train" "X_dsel" "y_train" "y_dsel"
    (.call2 "train_test_split" (.var "X_train") (.var "y_train")
      [("test_size", ⟨5, 10⟩)]),
  .assign "model"
    (.call1 "CalibratedClassifierCV" (.call0 "Perceptron" [("max_iter", ⟨10, 1⟩)]) []),
  .assign "pool_classifiers"
    (.call1 "BaggingClassifier" (.var "model") [("n_estimators", ⟨10, 1⟩)]),
  .fit2 "pool_classifiers" (.var "X_train") (.var "y_train"),
  .assign "knorau" (.call1 "KNORAU" (.var "pool_classifiers") []),
  .assign "kne" (.call1 "KNORAE" (.var "pool_classifiers") []),
  .assign "desp" (.call1 "DESP" (.var "pool_classifiers") []),
  .assign "ola" (.call1 "OLA" (.var "pool_classifiers") []),
  .assign "mcb" (.call1 "MCB" (.var "pool_classifiers") []),
  .assign "apriori" (.call1 "APriori" (.var "pool_classifiers") []),
  .assign "meta" (.call1 "METADES" (.var "pool_classifiers") []),
  .fit2 "knorau" (.var "X_dsel") (.var "y_dsel"),
  .fit2 "kne" (.var "X_dsel") (.var "y_dsel"),
  .fit2 "desp" (.var "X_dsel") (.var "y_dsel"),
  .fit2 "ola" (.var "X_dsel") (.var "y_dsel"),
  .fit2 "mcb" (.var "X_dsel") (.var "y_dsel"),
  .fit2 "apriori" (.var "X_dsel") (.var "y_dsel"),
  .fit2 "meta" (.var "X_dsel") (.var "y_dsel"),
  .printScore2 "Classification accuracy OLA: " "ola" (.var "X_test") (.var "y_test"),
  .printScore2 "Classification accuracy A priori: " "apriori" (.var "X_test") (.var "y_test"),
  .printScore2 "Classification accuracy KNORA-Union: " "knorau" (.var "X_test") (.var "y_test"),
  .printScore2 "Classification accuracy KNORA-Eliminate: " "kne" (.var "X_test") (.var "y_test"),
  .printScore2 "Classification accuracy DESP: " "desp" (.var "X_test") (.var "y_test"),
  .printScore2 "Classification accuracy META-DES: " "apriori" (.var "X_test") (.var "y_test")]

/-- A complete, exception-free run of the notebook under random source `w`. -/
def run (w : Nat → Nat) : RunResult := runFrom w none prog 0 []

/-! Closed forms of the values the run builds, named after the script's
variables.  Each is read off the corresponding source line; the `run_*`
lemmas below check them against the interpreter definitionally. -/

def dataVal : Val := .res0 "load_breast_cancer" [] none

def dataX : Val := .attr dataVal "data"

def dataY : Val := .attr dataVal "target"

/-- `train_test_split(X, y, test_size=0.33)` (statement 3, draw `w 3`). -/
def firstSplit (w : Nat → Nat) : Val :=
  .res2 "train_test_split" dataX dataY [("test_size", ⟨33, 100⟩)] (some (w 3))

def xTrainRaw (w : Nat → Nat) : Val := .proj 0 (firstSplit w)

def xTestRaw (w : Nat → Nat) : Val := .proj 1 (firstSplit w)

def yTrainRaw (w : Nat → Nat) : Val := .proj 2 (firstSplit w)

def yTestVal (w : Nat → Nat) : Val := .proj 3 (firstSplit w)

/-- The scaler after `scalar.fit_transform(X_train)`: its parameters are a
function of the pre-split training matrix only. -/
def scalarFitted (w : Nat → Nat) : Val :=
  .fitted1 (.res0 "StandardScaler" [] none) (xTrainRaw w) (w 5)

def xTrainScaled (w : Nat → Nat) : Val := .mres1 (scalarFitted w) "transform" (xTrainRaw w)

/-- `X_test` after `scalar.transform(X_test)`: the test rows transformed by
the scaler fitted on the training rows. -/
def xTestScaled (w : Nat → Nat) : Val := .mres1 (scalarFitted w) "transform" (xTestRaw w)

/-- `train_test_split(X_train, y_train, test_size=0.5)` (statement 7, draw
`w 7`), applied to the already-scaled training data. -/
def secondSplit (w : Nat → Nat) : Val :=
  .res2 "train_test_split" (xTrainScaled w) (yTrainRaw w) [("test_size", ⟨5, 10⟩)]
    (some (w 7))

def xTrainVal (w : Nat → Nat) : Val := .proj 0 (secondSplit w)

def xDselVal (w : Nat → Nat) : Val := .proj 1 (secondSplit w)

def yTrainVal (w : Nat → Nat) : Val := .proj 2 (secondSplit w)

def yDselVal (w : Nat → Nat) : Val := .proj 3 (secondSplit w)

/-- `CalibratedClassifierCV(Perceptron(max_iter=10))`. -/
def modelVal : Val :=
  .res1 "CalibratedClassifierCV" (.res0 "Perceptron" [("max_iter", ⟨10, 1⟩)] none) [] none

/-- The bagging pool after `pool_classifiers.fit(X_train, y_train)`
(statement 10): fitted on the post-selection-split training subset. -/
def poolFitted (w : Nat → Nat) : Val :=
  .fitted2 (.res1 "BaggingClassifier" modelVal [("n_estimators", ⟨10, 1⟩)] none)
    (xTrainVal w) (yTrainVal w) (w 10)

/-- A dynamic-selection estimator built from the pool and fitted on the
DSEL subset; `i` is the index of its `fit` statement. -/
def dsFitted (fn : String) (i : Nat) (w : Nat → Nat) : Val :=
  .fitted2 (.res1 fn (poolFitted w) [] none) (xDselVal w) (yDselVal w) (w i)

/-- What each printed line's value is: a `score` of the named estimator on
the final test data. -/
def scoreLine (fn : String) (i : Nat) (w : Nat → Nat) : Val :=
  .score (dsFitted fn i w) (xTestScaled w) (yTestVal w)

/-! Row-level model of the splitter.  `train_test_split(A, B, test_size=t)`
shuffles the rows and cuts off `ceil(n * t)` of them as the test part; the
shuffle is modelled as a rotation of the row indices by the random draw
(any permutation would do for the properties proved here). -/

/-- Number of test rows: `ceil(n * num/den)`, as `sklearn` computes it. -/
def testCount (n : Nat) (t : Lit) : Nat := (n * t.num + (t.den - 1)) / t.den

/-- Row indices of the two parts returned by the splitter:
`(train rows, test rows)`. -/
def tts_rows (n r : Nat) (t : Lit) : List Nat × List Nat :=
  ((List.range n).rotate r |>.drop (testCount n t),
   (List.range n).rotate r |>.take (testCount n t))

/-! Syntactic predicates on the embedded script, used for claims about
what the source text does and does not contain. -/

/-- Does an expression mention the variable `x`? -/
def usesVarE (x : String) : Expr → Bool
  | .var y => y = x
  | .attr e _ => usesVarE x e
  | .call0 _ _ => false
  | .call1 _ e _ => usesVarE x e
  | .call2 _ e₁ e₂ _ => usesVarE x e₁ || usesVarE x e₂
  | .method1 e _ a => usesVarE x e || usesVarE x a

/-- Does a statement mention the variable `x` anywhere (read, write, or
in-place mutation)? -/
def usesVarS (x : String) : Stmt → Bool
  | .assign y e => y = x || usesVarE x e
  | .assign4 a b c d e => a = x || b = x || c = x || d = x || usesVarE x e
  | .fit2 y e₁ e₂ => y = x || usesVarE x e₁ || usesVarE x e₂
  | .fitTransform y r e => y = x || r = x || usesVarE x e
  | .printScore2 _ y e₁ e₂ => y = x || usesVarE x e₁ || usesVarE x e₂

/-- Does a statement rebind or mutate the variable `x`? -/
def writesVar (x : String) : Stmt → Bool
  | .assign y _ => y = x
  | .assign4 a b c d _ => a = x || b = x || c = x || d = x
  | .fit2 y _ _ => y = x
  | .fitTransform y r _ => y = x || r = x
  | .printScore2 _ _ _ _ => false

/-- Do all keyword lists of an expression omit `random_state`? -/
def noSeedE : Expr → Bool
  | .var _ => true
  | .attr e _ => noSeedE e
  | .call0 _ ks => !hasRandomState ks
  | .call1 _ e ks => !hasRandomState ks && noSeedE e
  | .call2 _ e₁ e₂ ks => !hasRandomState ks && noSeedE e₁ && noSeedE e₂
  | .method1 e _ a => noSeedE e && noSeedE a

/-- Does a statement pass a fixed random seed anywhere? -/
def noSeedS : Stmt → Bool
  | .assign _ e => noSeedE e
  | .assign4 _ _ _ _ e => noSeedE e
  | .fit2 _ e₁ e₂ => noSeedE e₁ && noSeedE e₂
  | .fitTransform _ _ e => noSeedE e
  | .printScore2 _ _ e₁ e₂ => noSeedE e₁ && noSeedE e₂

/-- The environment after the data-preparation cell (statements 0–6: load,
first split, scaling of the training and test matrices). -/
def midEnv (w : Nat → Nat) : Env := (runFrom w none (prog.take 7) 0 []).env

/-- Statements 7–24 of the script: the selection split, the pool and
estimator constructions, and every `fit` call.  Everything the script ever
fits is bound by the end of this phase. -/
def fitStmts : List Stmt := (prog.drop 7).take 18

/-- Intervention semantics: replace the scaled test matrix bound to
`X_test` by an arbitrary value `v` just after the scaling step, then run
the whole model-fitting phase unchanged. -/
def fitPhase (w : Nat → Nat) (v : Val) : RunResult :=
  runFrom w none fitStmts 7 (upd (midEnv w) "X_test" v)

/-- The positional arguments of a `score` call, when the value is one. -/
def scoreArgs : Val → Option (Val × Val)
  | .score _ a b => some (a, b)
  | _ => none

/-! What the interpreter computes, in the named closed forms. -/

theorem run_output (w : Nat → Nat) : (run w).output =
    [("Classification accuracy OLA: ", scoreLine "OLA" 21 w),
     ("Classification accuracy A priori: ", scoreLine "APriori" 23 w),
     ("Classification accuracy KNORA-Union: ", scoreLine "KNORAU" 18 w),
     ("Classification accuracy KNORA-Eliminate: ", scoreLine "KNORAE" 19 w),
     ("Classification accuracy DESP: ", scoreLine "DESP" 20 w),
     ("Classification accuracy META-DES: ", scoreLine "APriori" 23 w)] := rfl

theorem run_env_pool (w : Nat → Nat) :
    lookup (run w).env "pool_classifiers" = some (poolFitted w) := rfl

theorem run_env_xtest (w : Nat → Nat) :
    lookup (run w).env "X_test" = some (xTestScaled w) := rfl

/-- The two parts of one split share no row. -/
theorem tts_rows_disjoint (n r : Nat) (t : Lit) :
    List.Disjoint (tts_rows n r t).2 (tts_rows n r t).1 :=
  List.disjoint_take_drop (List.nodup_rotate.mpr (List.nodup_range n)) le_rfl

/-! Exception propagation: a run whose failure oracle names statement `j`
prints an initial segment of the full run's output and does not complete. -/

theorem runFrom_fail_append (w : Nat → Nat) (j : Nat) :
    ∀ (ss : List Stmt) (i : Nat) (env : Env),
      ∃ t, (runFrom w none ss i env).output = (runFrom w (some j) ss i env).output ++ t := by
  intro ss
  induction ss with
  | nil => intro i env; exact ⟨[], rfl⟩
  | cons s ss ih =>
      intro i env
      by_cases hj : j = i
      · subst hj
        refine ⟨(runFrom w none (s :: ss) j env).output, ?_⟩
        simp [runFrom]
      · obtain ⟨t, ht⟩ := ih (i + 1) (stepS (w i) env s).1
        refine ⟨t, ?_⟩
        simp only [runFrom, reduceCtorEq, if_false, Option.some.injEq, hj, if_neg,
          not_false_iff]
        rw [ht, List.append_assoc]

theorem runFrom_fail_not_ok (w : Nat → Nat) (j : Nat) :
    ∀ (ss : List Stmt) (i : Nat) (env : Env), i ≤ j → j < i + ss.length →
      (runFrom w (some j) ss i env).ok = false := by
  intro ss
  induction ss with
  | nil => intro i env h₁ h₂; simp at h₂; omega
  | cons s ss ih =>
      intro i env h₁ h₂
      by_cases hj : j = i
      · subst hj; simp [runFrom]
      · have : i + 1 ≤ j := by omega
        simp only [runFrom, Option.some.injEq, hj, if_neg, not_false_iff]
        exact ih (i + 1) (stepS (w i) env s).1 this (by simp at h₂ ⊢; omega)

theorem runFrom_fail_exec (w : Nat → Nat) (j : Nat) :
    ∀ (ss : List Stmt) (i : Nat) (env : Env), i ≤ j →
      (runFrom w (some j) ss i env).exec = ss.take (j - i) := by
  intro ss
  induction ss with
  | nil => intro i env _; simp [runFrom]
  | cons s ss ih =>
      intro i env h
      by_cases hj : j = i
      · subst hj; simp [runFrom]
      · have h1 : i + 1 ≤ j := by omega
        have h2 : j - i = (j - (i + 1)) + 1 := by omega
        simp only [runFrom, Option.some.injEq, hj, if_neg, not_false_iff]
        rw [ih (i + 1) (stepS (w i) env s).1 h1, h2, List.take_succ_cons]

/-! Noninterference: statements that never mention a variable produce
bindings and output that do not depend on its value. -/

theorem lookup_append_ne (x y : String) (v v' : Val) (env : Env) (hy : y ≠ x) :
    ∀ E : Env, lookup (E ++ (x, v) :: env) y = lookup (E ++ (x, v') :: env) y := by
  intro E
  induction E with
  | nil => simp only [List.nil_append, lookup, if_neg (Ne.symm hy)]
  | cons p E ih =>
      obtain ⟨k, u⟩ := p
      simp only [List.cons_append, lookup]
      by_cases hk : k = y
      · simp [hk]
      · simp only [if_neg hk]
        exact ih

theorem lookupD_append_ne (x y : String) (v v' : Val) (env : Env) (E : Env)
    (hy : y ≠ x) :
    lookupD (E ++ (x, v) :: env) y = lookupD (E ++ (x, v') :: env) y := by
  unfold lookupD
  rw [lookup_append_ne x y v v' env hy E]

theorem evalE_indep (r : Nat) (x : String) (v v' : Val) (env E : Env) :
    ∀ e : Expr, usesVarE x e = false →
      evalE r (E ++ (x, v) :: env) e = evalE r (E ++ (x, v') :: env) e := by
  intro e
  induction e with
  | var y =>
      intro h
      simp only [usesVarE, decide_eq_false_iff_not] at h
      simp only [evalE]
      exact lookupD_append_ne x y v v' env E h
  | attr e f ih =>
      intro h
      simp only [usesVarE] at h
      simp only [evalE, ih h]
  | call0 fn ks => intro _; rfl
  | call1 fn e ks ih =>
      intro h
      simp only [usesVarE] at h
      simp only [evalE, ih h]
  | call2 fn e₁ e₂ ks ih₁ ih₂ =>
      intro h
      simp only [usesVarE, Bool.or_eq_false_iff] at h
      simp only [evalE, ih₁ h.1, ih₂ h.2]
  | method1 e m a ih₁ ih₂ =>
      intro h
      simp only [usesVarE, Bool.or_eq_false_iff] at h
      simp only [evalE, ih₁ h.1, ih₂ h.2]

theorem stepS_indep (r : Nat) (x : String) (v v' : Val) (env E : Env) :
    ∀ s : Stmt, usesVarS x s = false →
      ∃ E' out,
        stepS r (E ++ (x, v) :: env) s = (E' ++ (x, v) :: env, out) ∧
        stepS r (E ++ (x, v') :: env) s = (E' ++ (x, v') :: env, out) := by
  intro s h
  cases s with
  | assign y e =>
      simp only [usesVarS, Bool.or_eq_false_iff, decide_eq_false_iff_not] at h
      exact ⟨(y, evalE r (E ++ (x, v) :: env) e) :: E, [],
        by simp [stepS, upd],
        by simp [stepS, upd, evalE_indep r x v v' env E e h.2]⟩
  | assign4 a b c d e =>
      simp only [usesVarS, Bool.or_eq_false_iff, decide_eq_false_iff_not] at h
      refine ⟨(d, .proj 3 (evalE r (E ++ (x, v) :: env) e)) ::
              (c, .proj 2 (evalE r (E ++ (x, v) :: env) e)) ::
              (b, .proj 1 (evalE r (E ++ (x, v) :: env) e)) ::
              (a, .proj 0 (evalE r (E ++ (x, v) :: env) e)) :: E, [],
        by simp [stepS, upd], ?_⟩
      simp [stepS, upd, evalE_indep r x v v' env E e h.2]
  | fit2 y e₁ e₂ =>
      simp only [usesVarS, Bool.or_eq_false_iff, decide_eq_false_iff_not] at h
      exact ⟨(y, .fitted2 (lookupD (E ++ (x, v) :: env) y)
                (evalE r (E ++ (x, v) :: env) e₁)
                (evalE r (E ++ (x, v) :: env) e₂) r) :: E, [],
        by simp [stepS, upd],
        by simp [stepS, upd, evalE_indep r x v v' env E e₁ h.1.2,
          evalE_indep r x v v' env E e₂ h.2,
          lookupD_append_ne x y v v' env E h.1.1]⟩
  | fitTransform y rv e =>
      simp only [usesVarS, Bool.or_eq_false_iff, decide_eq_false_iff_not] at h
      exact ⟨(y, .mres1 (.fitted1 (lookupD (E ++ (x, v) :: env) rv)
                  (evalE r (E ++ (x, v) :: env) e) r) "transform"
                (evalE r (E ++ (x, v) :: env) e)) ::
              (rv, .fitted1 (lookupD (E ++ (x, v) :: env) rv)
                (evalE r (E ++ (x, v) :: env) e) r) :: E, [],
        by simp [stepS, upd],
        by simp [stepS, upd, evalE_indep r x v v' env E e h.2,
          lookupD_append_ne x rv v v' env E h.1.2]⟩
  | printScore2 lbl y e₁ e₂ =>
      simp only [usesVarS, Bool.or_eq_false_iff, decide_eq_false_iff_not] at h
      exact ⟨E, [(lbl, .score (lookupD (E ++ (x, v) :: env) y)
                  (evalE r (E ++ (x, v) :: env) e₁)
                  (evalE r (E ++ (x, v) :: env) e₂))],
        by simp [stepS],
        by simp [stepS, evalE_indep r x v v' env E e₁ h.1.2,
          evalE_indep r x v v' env E e₂ h.2,
          lookupD_append_ne x y v v' env E h.1.1]⟩

theorem runFrom_indep (w : Nat → Nat) (fa : Option Nat) (x : String) (v v' : Val)
    (env : Env) :
    ∀ (ss : List Stmt) (i : Nat) (E : Env),
      ss.all (fun s => !usesVarS x s) = true →
      ∃ E',
        (runFrom w fa ss i (E ++ (x, v) :: env)).env = E' ++ (x, v) :: env ∧
        (runFrom w fa ss i (E ++ (x, v') :: env)).env = E' ++ (x, v') :: env ∧
        (runFrom w fa ss i (E ++ (x, v) :: env)).output
          = (runFrom w fa ss i (E ++ (x, v') :: env)).output := by
  intro ss
  induction ss with
  | nil => intro i E _; exact ⟨E, rfl, rfl, rfl⟩
  | cons s ss ih =>
      intro i E h
      simp only [List.all_cons, Bool.and_eq_true, Bool.not_eq_true'] at h
      by_cases hf : fa = some i
      · exact ⟨E, by simp [runFrom, hf], by simp [runFrom, hf], by simp [runFrom, hf]⟩
      · obtain ⟨E1, out, h1, h2⟩ := stepS_indep (w i) x v v' env E s h.1
        obtain ⟨E', hE1, hE2, hout⟩ := ih (i + 1) E1 h.2
        refine ⟨E', ?_, ?_, ?_⟩ <;>
          simp only [runFrom, hf, if_neg, not_false_iff, h1, h2, hE1, hE2, hout]

theorem fitPhase_indep (w : Nat → Nat) (v v' : Val) (y : String)
    (hy : y ≠ "X_test") :
    lookup (fitPhase w v).env y = lookup (fitPhase w v').env y := by
  obtain ⟨E', h1, h2, _⟩ :=
    runFrom_indep w none "X_test" v v' (midEnv w) fitStmts 7 [] (by decide)
  simp only [List.nil_append] at h1 h2
  show lookup (runFrom w none fitStmts 7 (("X_test", v) :: midEnv w)).env y
      = lookup (runFrom w none fitStmts 7 (("X_test", v') :: midEnv w)).env y
  rw [h1, h2]
  exact lookup_append_ne "X_test" y v v' (midEnv w) hy E'

/-! The claims. -/

/-- C1: the claim says each of the seven fitted dynamic-selection
estimators gets its test accuracy computed and printed under its own
label.  The code diverges: only six lines are printed, none of them is
labeled MCB, and the line labeled META-DES prints
`apriori.score(X_test, y_test)` — the A Priori estimator's score — not a
score of the fitted METADES estimator, which would be a different value
term. -/
theorem C1_metades_line_mislabelled (w : Nat → Nat) :
    (run w).output.map Prod.fst =
      ["Classification accuracy OLA: ",
       "Classification accuracy A priori: ",
       "Classification accuracy KNORA-Union: ",
       "Classification accuracy KNORA-Eliminate: ",
       "Classification accuracy DESP: ",
       "Classification accuracy META-DES: "] ∧
    (run w).output.getLast? =
      some ("Classification accuracy META-DES: ", scoreLine "APriori" 23 w) ∧
    scoreLine "APriori" 23 w ≠ scoreLine "METADES" 24 w := by
  refine ⟨rfl, rfl, ?_⟩
  intro h
  simp [scoreLine, dsFitted] at h

/-- C2: the final printed line, labeled META-DES, carries the value of
`apriori.score(X_test, y_test)`; it is identical to the value printed on
the line labeled A priori, and the fitted METADES estimator `meta` is
never mentioned by any statement after its `fit` call (statement 24). -/
theorem C2_final_line_scores_apriori (w : Nat → Nat) :
    (run w).output.getLast? =
      some ("Classification accuracy META-DES: ", scoreLine "APriori" 23 w) ∧
    (run w).output[1]? =
      some ("Classification accuracy A priori: ", scoreLine "APriori" 23 w) ∧
    prog[24]? = some (.fit2 "meta" (.var "X_dsel") (.var "y_dsel")) ∧
    ((prog.drop 25).all fun s => !usesVarS "meta" s) = true :=
  ⟨rfl, rfl, rfl, by decide⟩

/-- C3: each of the seven estimators is constructed from the one fitted
`pool_classifiers` object and fitted on the DSEL pair
`(X_dsel, y_dsel)`, which, together with the pool-training subset, comes
from the single selection split of the scaled training data; the two parts
of one split are disjoint at row level. -/
theorem C3_same_pool_same_dsel (w : Nat → Nat) :
    lookup (run w).env "knorau" = some (dsFitted "KNORAU" 18 w) ∧
    lookup (run w).env "kne" = some (dsFitted "KNORAE" 19 w) ∧
    lookup (run w).env "desp" = some (dsFitted "DESP" 20 w) ∧
    lookup (run w).env "ola" = some (dsFitted "OLA" 21 w) ∧
    lookup (run w).env "mcb" = some (dsFitted "MCB" 22 w) ∧
    lookup (run w).env "apriori" = some (dsFitted "APriori" 23 w) ∧
    lookup (run w).env "meta" = some (dsFitted "METADES" 24 w) ∧
    lookup (run w).env "pool_classifiers" = some (poolFitted w) ∧
    lookup (run w).env "X_train" = some (.proj 0 (secondSplit w)) ∧
    lookup (run w).env "X_dsel" = some (.proj 1 (secondSplit w)) ∧
    (∀ n r t, List.Disjoint (tts_rows n r t).2 (tts_rows n r t).1) :=
  ⟨rfl, rfl, rfl, rfl, rfl, rfl, rfl, rfl, rfl, rfl, tts_rows_disjoint⟩

/-- C4: no statement of the script passes a `random_state` keyword, and
the printed output is not a function of the dataset alone: two random
sources yield different outputs. -/
theorem C4_no_seed_output_varies :
    (prog.all noSeedS) = true ∧
    (run (fun _ => 0)).output ≠ (run (fun _ => 1)).output := by
  refine ⟨by decide, ?_⟩
  intro h
  rw [run_output, run_output] at h
  simp [scoreLine, dsFitted, poolFitted, xTrainVal, yTrainVal, xDselVal, yDselVal,
    secondSplit, xTrainScaled, scalarFitted, xTrainRaw, yTrainRaw, firstSplit,
    xTestScaled, xTestRaw, yTestVal, modelVal] at h

/-- C5: the pool is
`BaggingClassifier(CalibratedClassifierCV(Perceptron(max_iter=10)), n_estimators=10)`,
and its single `fit` call uses the training subset that remains after the
selection split (the projections of the second split). -/
theorem C5_pool_bagging_calibrated (w : Nat → Nat) :
    lookup (run w).env "pool_classifiers" =
      some (.fitted2 (.res1 "BaggingClassifier" modelVal [("n_estimators", ⟨10, 1⟩)] none)
        (.proj 0 (secondSplit w)) (.proj 2 (secondSplit w)) (w 10)) ∧
    modelVal =
      .res1 "CalibratedClassifierCV" (.res0 "Perceptron" [("max_iter", ⟨10, 1⟩)] none) [] none ∧
    prog[10]? = some (.fit2 "pool_classifiers" (.var "X_train") (.var "y_train")) ∧
    (prog.countP fun s =>
      match s with
      | .fit2 "pool_classifiers" _ _ => true
      | _ => false) = 1 :=
  ⟨rfl, rfl, rfl, by decide⟩

/-- C6: every run executes the whole fixed statement list in source order
(the executed sequence is `prog` itself, independent of the random
source), with the phases at their fixed positions: load, first split,
scaling, selection split, pool fit, and a trailing block of print/score
statements. -/
theorem C6_straight_line (w w' : Nat → Nat) :
    (run w).exec = prog ∧ (run w).ok = true ∧ (run w).exec = (run w').exec ∧
    prog[0]? = some (.assign "data" (.call0 "load_breast_cancer" [])) ∧
    prog[3]? = some (.assign4 "X_train" "X_test" "y_train" "y_test"
      (.call2 "train_test_split" (.var "X") (.var "y") [("test_size", ⟨33, 100⟩)])) ∧
    prog[5]? = some (.fitTransform "X_train" "scalar" (.var "X_train")) ∧
    prog[6]? = some (.assign "X_test" (.method1 (.var "scalar") "transform" (.var "X_test"))) ∧
    prog[7]? = some (.assign4 "X_train" "X_dsel" "y_train" "y_dsel"
      (.call2 "train_test_split" (.var "X_train") (.var "y_train") [("test_size", ⟨5, 10⟩)])) ∧
    prog[10]? = some (.fit2 "pool_classifiers" (.var "X_train") (.var "y_train")) ∧
    ((prog.drop 25).all fun s =>
      match s with
      | .printScore2 _ _ _ _ => true
      | _ => false) = true ∧
    prog.length = 31 :=
  ⟨rfl, rfl, rfl, rfl, rfl, rfl, rfl, rfl, rfl, by decide, rfl⟩

/-- C7: an exception raised in any statement `j` of the script propagates
unhandled: the failing run executes exactly the statements before `j`,
terminates early, and its printed lines are an initial segment of the full
run's output — nothing is printed for the failing statement or any later
one. -/
theorem C7_exception_propagates (w : Nat → Nat) (j : Nat) (h : j < prog.length) :
    (∃ t, (run w).output = (runFrom w (some j) prog 0 []).output ++ t) ∧
    (runFrom w (some j) prog 0 []).exec = prog.take j ∧
    (runFrom w (some j) prog 0 []).ok = false :=
  ⟨runFrom_fail_append w j prog 0 [],
   runFrom_fail_exec w j prog 0 [] (Nat.zero_le j),
   runFrom_fail_not_ok w j prog 0 [] (Nat.zero_le j) (by simpa using h)⟩

/-- Witness for C7: a failure at the pool-fitting statement (index 10). -/
theorem C7_exception_propagates_witness :
    (∃ t, (run (fun _ => 0)).output
        = (runFrom (fun _ => 0) (some 10) prog 0 []).output ++ t) ∧
    (runFrom (fun _ => 0) (some 10) prog 0 []).exec = prog.take 10 ∧
    (runFrom (fun _ => 0) (some 10) prog 0 []).ok = false :=
  C7_exception_propagates (fun _ => 0) 10 (by decide)

/-- C8: after the scaling statement no later statement rebinds or mutates
`X_test` or `y_test`; the bindings at every later point are still the
scaled test matrix and the untouched test labels, and every one of the six
printed `score` calls receives exactly that pair. -/
theorem C8_test_set_frame (w : Nat → Nat) :
    ((prog.drop 7).all fun s => !writesVar "X_test" s && !writesVar "y_test" s) = true ∧
    lookup (midEnv w) "X_test" = some (xTestScaled w) ∧
    lookup (midEnv w) "y_test" = some (yTestVal w) ∧
    lookup (run w).env "X_test" = some (xTestScaled w) ∧
    lookup (run w).env "y_test" = some (yTestVal w) ∧
    (run w).output.map (fun p => scoreArgs p.2)
      = List.replicate 6 (some (xTestScaled w, yTestVal w)) :=
  ⟨by decide, rfl, rfl, rfl, rfl, rfl⟩

/-- C9: the scaler's parameters are a function of the pre-split training
matrix only; the pool-training and DSEL subsets are the two parts of one
split of the single scaled matrix (so they are scaled with identical
parameters); and replacing the scaled test matrix bound to `X_test` by any
other value before the model-fitting phase changes no fitted binding: not
the scaler, not the pool, not any of the seven estimators. -/
theorem C9_scaling_and_test_noninterference (w : Nat → Nat) (v v' : Val) :
    lookup (midEnv w) "scalar" = some (scalarFitted w) ∧
    scalarFitted w =
      .fitted1 (.res0 "StandardScaler" [] none) (.proj 0 (firstSplit w)) (w 5) ∧
    lookup (run w).env "X_train" = some (.proj 0 (secondSplit w)) ∧
    lookup (run w).env "X_dsel" = some (.proj 1 (secondSplit w)) ∧
    secondSplit w =
      .res2 "train_test_split"
        (.mres1 (scalarFitted w) "transform" (.proj 0 (firstSplit w)))
        (.proj 2 (firstSplit w)) [("test_size", ⟨5, 10⟩)] (some (w 7)) ∧
    lookup (fitPhase w v).env "scalar" = lookup (fitPhase w v').env "scalar" ∧
    lookup (fitPhase w v).env "pool_classifiers"
      = lookup (fitPhase w v').env "pool_classifiers" ∧
    lookup (fitPhase w v).env "knorau" = lookup (fitPhase w v').env "knorau" ∧
    lookup (fitPhase w v).env "kne" = lookup (fitPhase w v').env "kne" ∧
    lookup (fitPhase w v).env "desp" = lookup (fitPhase w v').env "desp" ∧
    lookup (fitPhase w v).env "ola" = lookup (fitPhase w v').env "ola" ∧
    lookup (fitPhase w v).env "mcb" = lookup (fitPhase w v').env "mcb" ∧
    lookup (fitPhase w v).env "apriori" = lookup (fitPhase w v').env "apriori" ∧
    lookup (fitPhase w v).env "meta" = lookup (fitPhase w v').env "meta" :=
  ⟨rfl, rfl, rfl, rfl, rfl,
   fitPhase_indep w v v' "scalar" (by decide),
   fitPhase_indep w v v' "pool_classifiers" (by decide),
   fitPhase_indep w v v' "knorau" (by decide),
   fitPhase_indep w v v' "kne" (by decide),
   fitPhase_indep w v v' "desp" (by decide),
   fitPhase_indep w v v' "ola" (by decide),
   fitPhase_indep w v v' "mcb" (by decide),
   fitPhase_indep w v v' "apriori" (by decide),
   fitPhase_indep w v v' "meta" (by decide)⟩

/-- C10: the pipeline's fixed constants as written in the source:
`n_estimators=10` on the bagging pool, a
`CalibratedClassifierCV(Perceptron(max_iter=10))` base estimator,
`test_size=0.33` on the first split, and `test_size=0.5` on the selection
split. -/
theorem C10_pipeline_constants :
    prog[9]? = some (.assign "pool_classifiers"
      (.call1 "BaggingClassifier" (.var "model") [("n_estimators", ⟨10, 1⟩)])) ∧
    prog[8]? = some (.assign "model"
      (.call1 "CalibratedClassifierCV" (.call0 "Perceptron" [("max_iter", ⟨10, 1⟩)]) [])) ∧
    prog[3]? = some (.assign4 "X_train" "X_test" "y_train" "y_test"
      (.call2 "train_test_split" (.var "X") (.var "y") [("test_size", ⟨33, 100⟩)])) ∧
    prog[7]? = some (.assign4 "X_train" "X_dsel" "y_train" "y_dsel"
      (.call2 "train_test_split" (.var "X_train") (.var "y_train") [("test_size", ⟨5, 10⟩)])) :=
  ⟨rfl, rfl, rfl, rfl⟩

end BaggingExample
